import Mathlib

/-!
Verification development for the whitelist-bot repository (TypeScript sources
under src/).  The definitions below are a shallow embedding of the code of
src/consoleListener.ts, src/pterodactyl.ts, src/minecraftQuery.ts and
src/statusMonitor.ts: pure fragments become Lean functions, the event-driven
stream client becomes explicit state passing over a state record, and the
orchestrator methods become functions of the console-phase outcome (an
Except value standing for "the awaited promise resolved with a line /
rejected with an error message") together with oracles for the external
HTTP calls.  Theorems at the end settle the frozen claims C1 - C10.
-/

namespace WhitelistBot

/- ------------------------------------------------------------------
   ConsoleListener: transport-session state (src/consoleListener.ts)
   ------------------------------------------------------------------ -/

/-- A JSON frame of the stream protocol: interface ConsoleMessage
`{ event: string; args: string[] }` (consoleListener.ts lines 11-14). -/
structure Frame where
  event : String
  args : List String
deriving DecidableEq, Repr

/-- readyState of the underlying WebSocket handle.  `opened` stands for
WebSocket.OPEN. -/
inductive ReadyState where
  | connecting
  | opened
  | closing
  | closed
deriving DecidableEq, Repr

/-- Mutable fields of class ConsoleListener (consoleListener.ts lines
21-27): the socket handle with its readyState (null when absent), the
authenticated flag, and the two one-shot timers.  A timer is modelled by
the delay (milliseconds) it was armed with, `none` when not armed. -/
structure CLState where
  ws : Option ReadyState
  authenticated : Bool
  reconnectTimer : Option Nat
  tokenRefreshTimer : Option Nat
deriving DecidableEq, Repr

/-- private send(message) (consoleListener.ts lines 169-175): if the socket
exists and its readyState is OPEN the frame is written to the wire,
otherwise an error is logged and nothing is sent.  Result: (frames put on
the wire, log lines). -/
def send (st : CLState) (m : Frame) : List Frame × List String :=
  match st.ws with
  | some ReadyState.opened => ([m], [])
  | _ => ([], ["Cannot send message: WebSocket not connected"])

/-- public sendCommand(command) (consoleListener.ts lines 180-188): when
not authenticated, log an error and return (a no-op; the function is total,
so no exception is raised); otherwise emit the frame
`{event: 'send command', args: [command]}` through send and log success. -/
def sendCommand (st : CLState) (command : String) : List Frame × List String :=
  if st.authenticated = false then
    ([], ["Cannot send command: Not authenticated"])
  else
    let r := send st { event := "send command", args := [command] }
    (r.1, r.2 ++ ["Sent command via WebSocket: " ++ command])

/-- private scheduleReconnect() (consoleListener.ts lines 231-240): clears
any previous reconnect timer and arms a fresh one with a fixed 5000 ms
delay (whose callback will call connect()). -/
def scheduleReconnect (st : CLState) : CLState :=
  { st with reconnectTimer := some 5000 }

/-- The 'close' handler registered in connect() (consoleListener.ts lines
100-104): the socket is now closed, authenticated is reset, and
scheduleReconnect() is called unconditionally — there is no flag
distinguishing a close caused by disconnect() from any other close. -/
def handleClose (st : CLState) : CLState :=
  scheduleReconnect
    { st with ws := st.ws.map (fun _ => ReadyState.closed), authenticated := false }

/-- The 'error' handler registered in connect() (consoleListener.ts lines
96-98): it only logs the error; no state change and in particular no
reconnect is scheduled by the error event itself. -/
def handleError (st : CLState) : CLState :=
  st

/-- public disconnect() (consoleListener.ts lines 284-303): clears both
timers, calls close() on the socket if one exists and drops the reference,
clears all callbacks, resets authenticated.  The returned Bool records
whether a socket existed, i.e. whether ws.close() was called — in that case
the socket's own 'close' event is still pending and its handler
(handleClose) runs afterwards. -/
def disconnectRun (st : CLState) : CLState × Bool :=
  ({ ws := none, authenticated := false,
     reconnectTimer := none, tokenRefreshTimer := none },
   st.ws.isSome)

/- ------------------------------------------------------------------
   Pattern-correlation layer: the callback registry
   (consoleListener.ts lines 24, 159-164, 194-226)
   ------------------------------------------------------------------ -/

/-- One registered console-output callback as created by
waitForConsoleMessage: its pattern test, plus a tag distinguishing the
closure identity (two registrations made with equal ids are still distinct
closures). -/
structure Waiter where
  tag : Nat
  test : String → Bool

/-- The `callbacks: Map<string, ConsoleCallback>` registry, as an
association list with JS Map semantics (keys unique, insertion order
kept). -/
abbrev Registry : Type := List (String × Waiter)

/-- Map.get: first (only) binding of the key. -/
def mapGet? : Registry → String → Option Waiter
  | [], _ => none
  | (k, w) :: t, k' => if k = k' then some w else mapGet? t k'

/-- Map.set: replace the binding in place when the key is present,
otherwise append (JS Maps keep insertion order). -/
def mapSet : Registry → String → Waiter → Registry
  | [], k, w => [(k, w)]
  | (k', w') :: t, k, w =>
      if k' = k then (k, w) :: t else (k', w') :: mapSet t k w

/-- Map.delete: remove the binding of the key, used by
offConsoleOutput(id) (consoleListener.ts lines 203-205). -/
def mapDelete : Registry → String → Registry
  | [], _ => []
  | (k, w) :: t, k' => if k = k' then t else (k, w) :: mapDelete t k'

/-- public onConsoleOutput(callback) (consoleListener.ts lines 194-198):
stores the callback under the caller-independent generated id via Map.set.
The id is produced by Math.random().toString(36).substring(7) and is NOT
checked for freshness, so the id is an arbitrary argument here and a
colliding id silently replaces the previous binding. -/
def onConsoleOutput (m : Registry) (id : String) (w : Waiter) : Registry :=
  mapSet m id w

/-- private processConsoleOutput(output) (consoleListener.ts lines
159-164) as it acts on a registry of waitForConsoleMessage callbacks
(lines 218-224): every stored callback is invoked with the line; a
callback whose pattern tests true clears its timer, deletes its own
binding and resolves its promise with the raw line; non-matching callbacks
leave everything unchanged.  Result: (registry afterwards, the resolutions
(closure tag, resolved line) in registry order). -/
def processConsoleOutput (m : Registry) (line : String) :
    Registry × List (Nat × String) :=
  (m.filter (fun p => ! p.2.test line),
   (m.filter (fun p => p.2.test line)).map (fun p => (p.2.tag, line)))

/-- The body of the callback registered by waitForConsoleMessage
(consoleListener.ts lines 218-224), for one delivered line: when the
pattern matches, clearTimeout(timer), offConsoleOutput(callbackId) and
resolve(output).  Result: (registry, timer still armed?, resolution). -/
def waitMatchStep (m : Registry) (id : String) (w : Waiter) (line : String) :
    Registry × Bool × Option String :=
  if w.test line then (mapDelete m id, false, some line) else (m, true, none)

/-- The timeout callback armed by waitForConsoleMessage (consoleListener.ts
lines 213-216): offConsoleOutput(callbackId) and reject with the timeout
error.  Result: (registry, rejection message). -/
def waitTimeoutStep (m : Registry) (id : String) : Registry × Option String :=
  (mapDelete m id, some "Timeout waiting for console message")

/- ------------------------------------------------------------------
   Regex fragments used by the orchestrator (src/pterodactyl.ts)
   ------------------------------------------------------------------ -/

/-- Character-list lowercasing (String.prototype.toLowerCase on the ASCII
alphabet used by the phrasings; structural so that proofs can evaluate
it). -/
def lowerChars (l : List Char) : List Char :=
  l.map Char.toLower

/-- Character-list whitespace trim: String.prototype.trim. -/
def trimChars (l : List Char) : List Char :=
  ((l.dropWhile Char.isWhitespace).reverse.dropWhile Char.isWhitespace).reverse

/-- String.prototype.trim via trimChars. -/
def jsTrim (s : String) : String :=
  String.mk (trimChars s.data)

/-- Unanchored substring search on character lists (the semantics of an
unanchored literal JS regex test). -/
def containsSub (pat : List Char) : List Char → Bool
  | [] => decide (pat = [])
  | c :: t => pat.isPrefixOf (c :: t) || containsSub pat t

/-- Case-insensitive unanchored literal test: regex /lit/i.test(hay). -/
def containsCI (hay lit : String) : Bool :=
  containsSub (lowerChars lit.data) (lowerChars hay.data)

/-- Test of an unanchored case-insensitive regex of the shape
/pre.+suf/i: some suffix of the line starts with pre, followed by at
least one character (the dot excludes the newline), followed somewhere by
suf. -/
def matchPreDotPlusSuf (pre suf hay : String) : Bool :=
  (List.tails (lowerChars hay.data)).any fun t =>
    (lowerChars pre.data).isPrefixOf t &&
    (let r := t.drop (lowerChars pre.data).length
     (List.range (r.length + 1)).any fun k =>
       decide (1 ≤ k) && (r.take k).all (fun c => ! (c = '\n')) &&
       (lowerChars suf.data).isPrefixOf (r.drop k))

/-- The waiter pattern of whitelistPlayerWithFeedback (pterodactyl.ts
lines 330-333): RegExp
(Added username to the whitelist|That player is already whitelisted|player does not exist)
with flag i — an unanchored alternation of literals. -/
def whitelistAddWaiterTest (username line : String) : Bool :=
  containsCI line ("Added " ++ username ++ " to the whitelist") ||
  containsCI line "That player is already whitelisted" ||
  containsCI line "player does not exist"

/- ------------------------------------------------------------------
   Orchestrator outcomes (src/pterodactyl.ts)
   ------------------------------------------------------------------ -/

/-- interface PterodactylResult (pterodactyl.ts lines 217-222). -/
structure PterodactylResult where
  success : Bool
  error : Option String
  statusCode : Option Nat
  consoleOutput : Option String
deriving DecidableEq, Repr

/-- Classification of the console line awaited by
whitelistPlayerWithFeedback (pterodactyl.ts lines 344-367): the literal
matched text is tested against the known phrasings in order, first match
wins; the structured outcome carries the trimmed raw line. -/
def classifyWhitelistFeedback (output : String) : PterodactylResult :=
  if matchPreDotPlusSuf "Added " " to the whitelist" output then
    { success := true, error := none, statusCode := none,
      consoleOutput := some (jsTrim output) }
  else if containsCI output "That player is already whitelisted" then
    { success := false, error := some "Spilleren er allerede whitelistet",
      statusCode := none, consoleOutput := some (jsTrim output) }
  else if containsCI output "player does not exist" then
    { success := false, error := some "Spilleren finnes ikke (ugyldig brukernavn)",
      statusCode := none, consoleOutput := some (jsTrim output) }
  else
    { success := false, error := some "Uventet svar fra serveren",
      statusCode := none, consoleOutput := some (jsTrim output) }

/-- Classification of the console line awaited by unwhitelistPlayer
(pterodactyl.ts lines 401-424), same ordered first-match-wins scheme. -/
def classifyUnwhitelist (output : String) : PterodactylResult :=
  if matchPreDotPlusSuf "Removed " " from the whitelist" output then
    { success := true, error := none, statusCode := none,
      consoleOutput := some (jsTrim output) }
  else if containsCI output "That player is not whitelisted" then
    { success := false, error := some "Spilleren er ikke whitelistet",
      statusCode := none, consoleOutput := some (jsTrim output) }
  else if containsCI output "player does not exist" then
    { success := false, error := some "Spilleren finnes ikke",
      statusCode := none, consoleOutput := some (jsTrim output) }
  else
    { success := false, error := some "Uventet svar fra serveren",
      statusCode := none, consoleOutput := some (jsTrim output) }

/-- public whitelistPlayerWithFeedback(username) (pterodactyl.ts lines
324-376), as a function of the console phase — Except.ok line when the
awaited waiter resolved with a console line, Except.error msg when it
rejected (timeout) or anything in the try block threw — and of the outcome
of the plain HTTP command call whitelistPlayer(username) used as fallback.
Result: (returned PterodactylResult, number of HTTP fallback command calls
made). -/
def whitelistFeedbackRun (consolePhase : Except String String)
    (httpOutcome : PterodactylResult) : PterodactylResult × Nat :=
  match consolePhase with
  | Except.ok line => (classifyWhitelistFeedback line, 0)
  | Except.error _ => (httpOutcome, 1)

/-- public unwhitelistPlayer(username) (pterodactyl.ts lines 381-433): on
a resolved line, classify; on timeout / any thrown error, return a failure
outcome built from error.message (with a default when the message is
empty) and make no HTTP fallback call. -/
def unwhitelistRun (consolePhase : Except String String) :
    PterodactylResult × Nat :=
  match consolePhase with
  | Except.ok line => (classifyUnwhitelist line, 0)
  | Except.error msg =>
      ({ success := false,
         error := some (if msg = "" then "Kunne ikke fjerne spilleren fra whitelist" else msg),
         statusCode := none, consoleOutput := none }, 0)

/- ------------------------------------------------------------------
   List-players parsing (pterodactyl.ts lines 438-478)
   ------------------------------------------------------------------ -/

/-- Result shape of getOnlinePlayers: { count, max, players }. -/
structure ListResult where
  count : Nat
  max : Nat
  players : List String
deriving DecidableEq, Repr

/-- Strip a literal pattern (given lowercased) case-insensitively from the
front of the original characters, keeping the rest in original case. -/
def stripCI : List Char → List Char → Option (List Char)
  | [], l => some l
  | _ :: _, [] => none
  | p :: ps, c :: cs => if c.toLower = p then stripCI ps cs else none

/-- parseInt(digits, 10) on a nonempty ASCII digit run. -/
def digitsToNat (l : List Char) : Nat :=
  l.foldl (fun acc c => acc * 10 + (c.toNat - '0'.toNat)) 0

/-- One attempt of the regex
/There are (\d+) of a max of (\d+) players online:?\s*(.*)?/i
at a fixed start position: the literal parts match case-insensitively,
each \d+ takes a maximal nonempty digit run, `:?` takes an optional colon,
\s* takes maximal whitespace, and the capture (.*) is the rest of the line
up to a newline.  Backtracking never helps here because everything after
each greedy token starts with a character the token cannot consume. -/
def parseListAt (l : List Char) : Option (Nat × Nat × List Char) := do
  let r1 ← stripCI "there are ".data l
  let d1 := r1.takeWhile Char.isDigit
  if d1 = [] then none else do
  let r2 ← stripCI " of a max of ".data (r1.dropWhile Char.isDigit)
  let d2 := r2.takeWhile Char.isDigit
  if d2 = [] then none else do
  let r3 ← stripCI " players online".data (r2.dropWhile Char.isDigit)
  let r4 := match r3 with
    | ':' :: t => t
    | _ => r3
  let r5 := r4.dropWhile Char.isWhitespace
  pure (digitsToNat d1, digitsToNat d2, r5.takeWhile (fun c => ! (c = '\n')))

/-- Leftmost-match search of String.prototype.match: try every start
position from the left. -/
def firstSome {α β : Type} (f : α → Option β) : List α → Option β
  | [] => none
  | a :: t =>
      match f a with
      | some b => some b
      | none => firstSome f t

/-- consoleOutput.match(/There are (\d+) of a max of (\d+) players online:?\s*(.*)?/i)
(pterodactyl.ts line 460): the two numeric captures and the third capture. -/
def parseList (s : String) : Option (Nat × Nat × List Char) :=
  firstSome parseListAt (List.tails s.data)

/-- String.prototype.split(',') on a character list (split always yields at
least one piece; splitting the empty string yields one empty piece). -/
def splitOnComma : List Char → List (List Char)
  | [] => [[]]
  | c :: t =>
      if c = ',' then [] :: splitOnComma t
      else
        match splitOnComma t with
        | [] => [[c]]
        | h :: t' => (c :: h) :: t'

/-- The parsing tail of getOnlinePlayers (pterodactyl.ts lines 460-471)
applied to the resolved console line: on a match, count and max are the
parsed numbers and the players are the third capture split on commas,
trimmed, empties dropped (an empty capture is falsy and yields []); when
the expected shape does not match anywhere in the line, the hard-coded
fallback { count: 0, max: 20, players: [] } is returned instead of an
error. -/
def getOnlinePlayersParse (s : String) : ListResult :=
  match parseList s with
  | some (c, m, rest) =>
      { count := c, max := m,
        players :=
          if rest = [] then []
          else ((((splitOnComma rest).map trimChars).filter
                   (fun p => ! (p = []))).map String.mk) }
  | none => { count := 0, max := 20, players := [] }

/-- public getOnlinePlayers() (pterodactyl.ts lines 438-478) as a function
of the console phase: a resolved line is parsed; a timeout or any thrown
error is caught and the same fallback data is returned.  No HTTP command
call exists on this path; the Nat counts HTTP fallback command calls. -/
def getOnlinePlayersRun (consolePhase : Except String String) :
    ListResult × Nat :=
  match consolePhase with
  | Except.ok line => (getOnlinePlayersParse line, 0)
  | Except.error _ => ({ count := 0, max := 20, players := [] }, 0)

/- ------------------------------------------------------------------
   Status poller (src/statusMonitor.ts, unnamed/part_003)
   ------------------------------------------------------------------ -/

/-- Server power state from the resources endpoint. -/
inductive ServState where
  | running
  | offline
  | starting
  | stopping
deriving DecidableEq, Repr

/-- interface PlayerInfo (minecraftQuery.ts): { online, max, players }. -/
structure PlayerInfo where
  online : Nat
  max : Nat
  players : List String
deriving DecidableEq, Repr

/-- The calls the poll tick can make to obtain a roster. -/
inductive PollCall where
  | consoleList
  | queryPlayers
deriving DecidableEq, Repr

/-- The playerInfo computation of StatusMonitor.updateStatus
(statusMonitor.ts lines 472-496): only when the resources fetch succeeded
and the state is running, try the orchestrator's getOnlinePlayers; if that
attempt throws, fall back to minecraftQuery.getPlayers() when
isEnabled(), leaving the roster absent when the query is not configured
or itself fails.  The console attempt and the query attempt are oracles
(Except values); the second component records which accessors were
invoked, in order. -/
def computePlayerInfo (serverSuccess : Bool) (state : Option ServState)
    (consoleOutcome : Except String ListResult) (queryEnabled : Bool)
    (queryOutcome : Except String PlayerInfo) :
    Option PlayerInfo × List PollCall :=
  if serverSuccess = true ∧ state = some ServState.running then
    match consoleOutcome with
    | Except.ok d =>
        (some { online := d.count, max := d.max, players := d.players },
         [PollCall.consoleList])
    | Except.error _ =>
        if queryEnabled then
          match queryOutcome with
          | Except.ok pi => (some pi, [PollCall.consoleList, PollCall.queryPlayers])
          | Except.error _ => (none, [PollCall.consoleList, PollCall.queryPlayers])
        else (none, [PollCall.consoleList])
  else (none, [])

/-- Math.round of JS: round half toward positive infinity. -/
def jsRound (q : ℚ) : ℤ :=
  Rat.floor (q + 1 / 2)

/-- The memory percent of StatusMonitor.createStatusEmbed
(statusMonitor.ts line 585):
Math.round((memory_bytes / memory_limit_bytes) * 100).  JS number
arithmetic on these integer byte counts is modelled by exact rationals; a
zero divisor makes the JS division non-finite (Infinity, or NaN for 0/0)
and Math.round of a non-finite number is non-finite, modelled as none —
the code carries no zero guard, so that non-finite value reaches the
rendered string. -/
def memoryPercent (memoryBytes memoryLimitBytes : Nat) : Option ℤ :=
  if memoryLimitBytes = 0 then none
  else some (jsRound (((memoryBytes : ℚ) / (memoryLimitBytes : ℚ)) * 100))

/- ------------------------------------------------------------------
   Concrete waiters used by witnesses
   ------------------------------------------------------------------ -/

/-- A concrete waiter whose pattern matches exactly the line "ping". -/
def pingWaiter : Waiter :=
  { tag := 1, test := fun s => s == "ping" }

/-- A concrete waiter matching nothing. -/
def silentWaiter : Waiter :=
  { tag := 0, test := fun _ => false }

/-- A second concrete waiter for the line "ping", with a distinct closure
tag. -/
def pingWaiter2 : Waiter :=
  { tag := 2, test := fun s => s == "ping" }

/-- A concrete listener state: open socket, authenticated, no timers. -/
def liveState : CLState :=
  { ws := some ReadyState.opened, authenticated := true,
    reconnectTimer := none, tokenRefreshTimer := none }

/-- A concrete listener state: open socket but not authenticated. -/
def unauthState : CLState :=
  { ws := some ReadyState.opened, authenticated := false,
    reconnectTimer := none, tokenRefreshTimer := none }

/- ------------------------------------------------------------------
   Registry lemmas
   ------------------------------------------------------------------ -/

/-- Setting an absent key appends the new binding. -/
theorem mapSet_of_fresh (m : Registry) (id : String) (w : Waiter)
    (h : mapGet? m id = none) : mapSet m id w = m ++ [(id, w)] := by
  induction m with
  | nil => rfl
  | cons q t ih =>
      obtain ⟨k, w'⟩ := q
      by_cases hk : k = id
      · subst hk
        simp [mapGet?] at h
      · simp only [mapGet?, if_neg hk] at h
        simp only [mapSet, if_neg hk, ih h, List.cons_append]

/-- Deleting an absent key changes nothing. -/
theorem mapDelete_of_fresh (m : Registry) (id : String)
    (h : mapGet? m id = none) : mapDelete m id = m := by
  induction m with
  | nil => rfl
  | cons q t ih =>
      obtain ⟨k, w'⟩ := q
      by_cases hk : k = id
      · subst hk
        simp [mapGet?] at h
      · simp only [mapGet?, if_neg hk] at h
        simp only [mapDelete, if_neg hk, ih h]

/-- Deleting a key that only the appended binding carries removes exactly
that binding. -/
theorem mapDelete_append_of_fresh (m : Registry) (id : String) (w : Waiter)
    (h : mapGet? m id = none) : mapDelete (m ++ [(id, w)]) id = m := by
  induction m with
  | nil => simp [mapDelete]
  | cons q t ih =>
      obtain ⟨k, w'⟩ := q
      by_cases hk : k = id
      · subst hk
        simp [mapGet?] at h
      · simp only [mapGet?, if_neg hk] at h
        rw [List.cons_append]
        simp only [mapDelete, if_neg hk]
        rw [ih h]

/-- A registry of callbacks none of which matches the line is untouched by
the filter that keeps non-matching callbacks. -/
theorem filter_keep_of_none (m : Registry) (line : String)
    (h : ∀ p ∈ m, p.2.test line = false) :
    m.filter (fun p => ! p.2.test line) = m := by
  induction m with
  | nil => rfl
  | cons q t ih =>
      have hq : q.2.test line = false := h q (List.mem_cons_self q t)
      have ht : ∀ p ∈ t, p.2.test line = false :=
        fun p hp => h p (List.mem_cons_of_mem q hp)
      simp [List.filter_cons, hq, ih ht]

/-- A registry of callbacks none of which matches the line contributes no
resolution. -/
theorem filter_match_of_none (m : Registry) (line : String)
    (h : ∀ p ∈ m, p.2.test line = false) :
    m.filter (fun p => p.2.test line) = [] := by
  induction m with
  | nil => rfl
  | cons q t ih =>
      have hq : q.2.test line = false := h q (List.mem_cons_self q t)
      have ht : ∀ p ∈ t, p.2.test line = false :=
        fun p hp => h p (List.mem_cons_of_mem q hp)
      simp [List.filter_cons, hq, ih ht]

/-- Map.set makes the key hold the new value. -/
theorem mapGet?_mapSet_self (m : Registry) (id : String) (w : Waiter) :
    mapGet? (mapSet m id w) id = some w := by
  induction m with
  | nil => simp [mapSet, mapGet?]
  | cons q t ih =>
      obtain ⟨k, w'⟩ := q
      by_cases hk : k = id
      · simp [mapSet, mapGet?, hk]
      · simp [mapSet, mapGet?, hk, ih]

/-- Map.set on a present key does not grow the registry. -/
theorem length_mapSet_of_get (m : Registry) (id : String) (wOld w : Waiter)
    (h : mapGet? m id = some wOld) : (mapSet m id w).length = m.length := by
  induction m with
  | nil => simp [mapGet?] at h
  | cons q t ih =>
      obtain ⟨k, w'⟩ := q
      by_cases hk : k = id
      · simp [mapSet, hk]
      · simp only [mapGet?, if_neg hk] at h
        simp [mapSet, hk, ih h]

/-- Membership after Map.set on a registry with unique keys: every binding
is either the new one or an old binding of a different key. -/
theorem mem_mapSet_of_nodup (m : Registry) (id : String) (w : Waiter)
    (p : String × Waiter) (hnodup : (m.map Prod.fst).Nodup)
    (hp : p ∈ mapSet m id w) : p = (id, w) ∨ (p ∈ m ∧ p.1 ≠ id) := by
  induction m with
  | nil =>
      simp only [mapSet, List.mem_singleton] at hp
      exact Or.inl hp
  | cons q t ih =>
      obtain ⟨k, w'⟩ := q
      simp only [List.map_cons, List.nodup_cons] at hnodup
      obtain ⟨hknotin, hnd⟩ := hnodup
      by_cases hk : k = id
      · subst hk
        simp only [mapSet, if_pos rfl] at hp
        rcases List.mem_cons.mp hp with h1 | h2
        · exact Or.inl h1
        · refine Or.inr ⟨List.mem_cons_of_mem _ h2, ?_⟩
          intro hpid
          exact hknotin (hpid ▸ List.mem_map_of_mem Prod.fst h2)
      · simp only [mapSet, if_neg hk] at hp
        rcases List.mem_cons.mp hp with h1 | h2
        · refine Or.inr ⟨List.mem_cons.mpr (Or.inl h1), ?_⟩
          rw [h1]
          exact hk
        · rcases ih hnd h2 with h3 | ⟨h4, h5⟩
          · exact Or.inl h3
          · exact Or.inr ⟨List.mem_cons_of_mem _ h4, h5⟩

/- ------------------------------------------------------------------
   Claim theorems
   ------------------------------------------------------------------ -/

/-- Claim C1: a waiter registered via waitForConsoleMessage sees exactly
one of two outcomes.  With a fresh id, the registration grows the registry
by one; if a line matching the pattern is forwarded, the delivery resolves
the waiter with the raw line and restores the registry to its prior value
(hence its prior size) — the waiter callback itself clears its timer and
unregisters its matcher; if instead the timeout fires first, it
unregisters the matcher, restoring the prior registry, and rejects with
the timeout error.  Exclusivity: after a match the id is gone, so the
late timer cleanup (mapDelete m id) is a no-op; after a timeout the
registry is back to m, in which no callback matches the line, so a later
delivery resolves nothing. -/
theorem waiter_exactly_one_outcome (m : Registry) (id : String) (w : Waiter)
    (line : String)
    (hfresh : mapGet? m id = none)
    (hmatch : w.test line = true)
    (hothers : ∀ p ∈ m, p.2.test line = false) :
    (onConsoleOutput m id w).length = m.length + 1 ∧
    processConsoleOutput (onConsoleOutput m id w) line = (m, [(w.tag, line)]) ∧
    waitMatchStep (onConsoleOutput m id w) id w line = (m, false, some line) ∧
    waitTimeoutStep (onConsoleOutput m id w) id =
      (m, some "Timeout waiting for console message") ∧
    processConsoleOutput m line = (m, []) ∧
    mapDelete m id = m := by
  have hms : onConsoleOutput m id w = m ++ [(id, w)] :=
    mapSet_of_fresh m id w hfresh
  have hdel : mapDelete (m ++ [(id, w)]) id = m :=
    mapDelete_append_of_fresh m id w hfresh
  refine ⟨?_, ?_, ?_, ?_, ?_, ?_⟩
  · rw [hms, List.length_append]
    rfl
  · rw [hms]
    unfold processConsoleOutput
    rw [List.filter_append, List.filter_append,
        filter_keep_of_none m line hothers, filter_match_of_none m line hothers]
    simp [hmatch]
  · rw [hms]
    unfold waitMatchStep
    rw [if_pos hmatch, hdel]
  · rw [hms]
    unfold waitTimeoutStep
    rw [hdel]
  · unfold processConsoleOutput
    rw [filter_keep_of_none m line hothers, filter_match_of_none m line hothers]
    rfl
  · exact mapDelete_of_fresh m id hfresh

/-- Witness for C1 at a concrete registry holding one unrelated waiter:
registering pingWaiter under the fresh id "k7gw2" grows the registry to
two entries; delivering "ping" resolves pingWaiter with the raw line and
restores the one-entry registry; alternatively the timeout restores it
and rejects with the timeout error. -/
theorem waiter_exactly_one_outcome_witness :
    (onConsoleOutput [("a1", silentWaiter)] "k7gw2" pingWaiter).length =
      [("a1", silentWaiter)].length + 1 ∧
    processConsoleOutput
        (onConsoleOutput [("a1", silentWaiter)] "k7gw2" pingWaiter) "ping" =
      ([("a1", silentWaiter)], [(pingWaiter.tag, "ping")]) ∧
    waitMatchStep (onConsoleOutput [("a1", silentWaiter)] "k7gw2" pingWaiter)
        "k7gw2" pingWaiter "ping" =
      ([("a1", silentWaiter)], false, some "ping") ∧
    waitTimeoutStep (onConsoleOutput [("a1", silentWaiter)] "k7gw2" pingWaiter)
        "k7gw2" =
      ([("a1", silentWaiter)], some "Timeout waiting for console message") ∧
    processConsoleOutput [("a1", silentWaiter)] "ping" =
      ([("a1", silentWaiter)], []) ∧
    mapDelete [("a1", silentWaiter)] "k7gw2" = [("a1", silentWaiter)] :=
  waiter_exactly_one_outcome [("a1", silentWaiter)] "k7gw2" pingWaiter "ping"
    rfl rfl
    (fun p hp => by rw [List.mem_singleton.mp hp]; rfl)

/-- Claim C9: onConsoleOutput does not check its generated id for
freshness; Map.set with an id already bound silently replaces the
existing registration.  With unique keys, after the collision the registry
has the same size, the id now yields the new waiter, no binding carries
the displaced waiter's closure any more, hence no forwarded line can ever
resolve the displaced waiter — it can only be rejected by its own timeout,
whose cleanup deletes whatever binding now sits under the shared id. -/
theorem waiter_id_collision_replaces (m : Registry) (id : String)
    (wOld wNew : Waiter)
    (hnodup : (m.map Prod.fst).Nodup)
    (hold : mapGet? m id = some wOld)
    (hTagOther : ∀ p ∈ m, p.1 ≠ id → p.2.tag ≠ wOld.tag)
    (hTagNew : wNew.tag ≠ wOld.tag) :
    (onConsoleOutput m id wNew).length = m.length ∧
    mapGet? (onConsoleOutput m id wNew) id = some wNew ∧
    (∀ p ∈ onConsoleOutput m id wNew, p.2.tag ≠ wOld.tag) ∧
    (∀ line r, r ∈ (processConsoleOutput (onConsoleOutput m id wNew) line).2 →
       r.1 ≠ wOld.tag) ∧
    waitTimeoutStep (onConsoleOutput m id wNew) id =
      (mapDelete (onConsoleOutput m id wNew) id,
       some "Timeout waiting for console message") := by
  have htags : ∀ p ∈ onConsoleOutput m id wNew, p.2.tag ≠ wOld.tag := by
    intro p hp
    rcases mem_mapSet_of_nodup m id wNew p hnodup hp with h1 | ⟨h2, h3⟩
    · rw [h1]
      exact hTagNew
    · exact hTagOther p h2 h3
  refine ⟨length_mapSet_of_get m id wOld wNew hold,
          mapGet?_mapSet_self m id wNew, htags, ?_, rfl⟩
  intro line r hr
  unfold processConsoleOutput at hr
  obtain ⟨p, hpf, hre⟩ := List.mem_map.mp hr
  have hpm : p ∈ onConsoleOutput m id wNew := List.mem_of_mem_filter hpf
  rw [← hre]
  exact htags p hpm

/-- Witness for C9: the registry already binds "k7gw2" to pingWaiter (tag
1); a second registration draws the same id with a fresh closure
pingWaiter2 (tag 2).  The registry does not grow, the id now yields
pingWaiter2, and the displaced tag 1 appears in no binding and in no
resolution. -/
theorem waiter_id_collision_replaces_witness :
    (onConsoleOutput [("k7gw2", pingWaiter)] "k7gw2" pingWaiter2).length =
      [("k7gw2", pingWaiter)].length ∧
    mapGet? (onConsoleOutput [("k7gw2", pingWaiter)] "k7gw2" pingWaiter2)
        "k7gw2" = some pingWaiter2 ∧
    (∀ p ∈ onConsoleOutput [("k7gw2", pingWaiter)] "k7gw2" pingWaiter2,
       p.2.tag ≠ pingWaiter.tag) ∧
    (∀ line r,
       r ∈ (processConsoleOutput
              (onConsoleOutput [("k7gw2", pingWaiter)] "k7gw2" pingWaiter2)
              line).2 →
       r.1 ≠ pingWaiter.tag) ∧
    waitTimeoutStep (onConsoleOutput [("k7gw2", pingWaiter)] "k7gw2" pingWaiter2)
        "k7gw2" =
      (mapDelete (onConsoleOutput [("k7gw2", pingWaiter)] "k7gw2" pingWaiter2)
         "k7gw2",
       some "Timeout waiting for console message") :=
  waiter_id_collision_replaces [("k7gw2", pingWaiter)] "k7gw2"
    pingWaiter pingWaiter2
    (by simp)
    rfl
    (fun p hp hne => by rw [List.mem_singleton.mp hp] at hne; exact absurd rfl hne)
    (by decide)

/-- Claim C2: asymmetric degraded-mode policy.  When the console phase
fails (waiter timeout or any thrown error, carried as the error message),
whitelistPlayerWithFeedback makes exactly one plain HTTP command call and
returns that call's outcome unchanged; unwhitelistPlayer makes no HTTP
fallback call and returns a failure outcome carrying the error message;
getOnlinePlayers makes no HTTP fallback call and returns its hard-coded
fallback roster. -/
theorem fallback_asymmetry (err : String) (httpOutcome : PterodactylResult) :
    whitelistFeedbackRun (Except.error err) httpOutcome = (httpOutcome, 1) ∧
    (unwhitelistRun (Except.error err)).2 = 0 ∧
    (unwhitelistRun (Except.error err)).1.success = false ∧
    getOnlinePlayersRun (Except.error err) =
      ({ count := 0, max := 20, players := [] }, 0) := by
  exact ⟨rfl, rfl, rfl, rfl⟩

/-- Counterexample to claim C3 as stated, at the concrete live state.  The
claim says every stream error schedules a 5-second reconnect and that
after an explicit disconnect() no reconnect is ever scheduled.  Both parts
fail on the code: the 'error' handler only logs, scheduling nothing
(reconnectTimer stays none); and disconnect() closes the socket, whose
pending 'close' event then runs the close handler, which unconditionally
re-arms the reconnect timer (some 5000). -/
theorem reconnect_policy_counterexample :
    (handleError liveState).reconnectTimer = none ∧
    (disconnectRun liveState).2 = true ∧
    (handleClose (disconnectRun liveState).1).reconnectTimer = some 5000 :=
  ⟨rfl, rfl, rfl⟩

/-- Claim C3 as amended: every close event on the stream schedules a
reconnect after the fixed 5000 ms delay — including the close triggered by
an explicit disconnect(): disconnect() clears the pending reconnect timer,
but closing its socket leaves a close event pending whose handler re-arms
the timer; a stream error event alone changes nothing (only the close that
follows it schedules the reconnect). -/
theorem reconnect_policy (st : CLState) :
    (handleClose st).reconnectTimer = some 5000 ∧
    handleError st = st ∧
    (disconnectRun st).1.reconnectTimer = none ∧
    (disconnectRun st).2 = st.ws.isSome ∧
    (handleClose (disconnectRun st).1).reconnectTimer = some 5000 :=
  ⟨rfl, rfl, rfl, rfl, rfl⟩

/-- Claim C4: console-feedback classification for whitelist-add on user
Steve.  The waiter pattern matches both lines; "Added Steve to the
whitelist" classifies as success with matched text equal to the input
line; "That player is already whitelisted" does not satisfy the
first-tested "Added ... to the whitelist" phrasing (first match wins in
the ordered chain) and classifies as the specific 'already whitelisted'
failure; in both cases no HTTP fallback call is made. -/
theorem feedback_classification (httpOutcome : PterodactylResult) :
    whitelistAddWaiterTest "Steve" "Added Steve to the whitelist" = true ∧
    whitelistAddWaiterTest "Steve" "That player is already whitelisted" = true ∧
    matchPreDotPlusSuf "Added " " to the whitelist"
      "That player is already whitelisted" = false ∧
    whitelistFeedbackRun (Except.ok "Added Steve to the whitelist") httpOutcome =
      ({ success := true, error := none, statusCode := none,
         consoleOutput := some "Added Steve to the whitelist" }, 0) ∧
    whitelistFeedbackRun (Except.ok "That player is already whitelisted")
        httpOutcome =
      ({ success := false, error := some "Spilleren er allerede whitelistet",
         statusCode := none,
         consoleOutput := some "That player is already whitelisted" }, 0) := by
  refine ⟨by decide, by decide, by decide, ?_, ?_⟩ <;>
    simp [whitelistFeedbackRun] <;> decide

/-- Claim C5: list-players parsing on the two specified inputs.  The
populated roster line parses to count 2, max 20 and the trimmed player
names; the line without the optional player list parses to count 0,
max 20 and an empty roster. -/
theorem listPlayers_parse_examples :
    getOnlinePlayersParse "There are 2 of a max of 20 players online: Alice, Bob" =
      { count := 2, max := 20, players := ["Alice", "Bob"] } ∧
    getOnlinePlayersParse "There are 0 of a max of 20 players online" =
      { count := 0, max := 20, players := [] } ∧
    getOnlinePlayersRun
        (Except.ok "There are 2 of a max of 20 players online: Alice, Bob") =
      ({ count := 2, max := 20, players := ["Alice", "Bob"] }, 0) := by
  refine ⟨by decide, by decide, ?_⟩
  simp [getOnlinePlayersRun]
  decide

/-- Counterexample to claim C6 as stated: on a response in which the
expected shape does not match, the code returns max = 20 (a hard-coded
default), not the zero max the claim asserts. -/
theorem listPlayers_no_match_counterexample :
    parseList "Unknown command" = none ∧
    getOnlinePlayersParse "Unknown command" =
      { count := 0, max := 20, players := [] } ∧
    ¬ (getOnlinePlayersParse "Unknown command").max = 0 := by
  refine ⟨rfl, by decide, by decide⟩

/-- Claim C6 as amended: for every list-players response text in which the
expected "There are N of a max of M players online" shape does not match,
the result is a zero count, the hard-coded default max of 20, and an empty
player list, rather than an error. -/
theorem listPlayers_no_match_fallback (s : String)
    (h : parseList s = none) :
    getOnlinePlayersParse s = { count := 0, max := 20, players := [] } := by
  unfold getOnlinePlayersParse
  rw [h]

/-- Witness for the amended C6 at the concrete non-matching response
"Unknown command". -/
theorem listPlayers_no_match_fallback_witness :
    parseList "Unknown command" = none ∧
    getOnlinePlayersParse "Unknown command" =
      { count := 0, max := 20, players := [] } :=
  ⟨rfl, listPlayers_no_match_fallback "Unknown command" rfl⟩

/-- Claim C7: in every poll tick whose fetched state is running (and whose
resources fetch succeeded), the roster is attempted via the orchestrator's
list-players accessor; if that attempt succeeds its data becomes the
roster and the query accessor is never invoked; if it fails, the secondary
query-protocol accessor is invoked exactly when one is configured, and
with no query configured the roster is left absent. -/
theorem statusPoll_roster_policy (serverSuccess : Bool)
    (state : Option ServState) (consoleOutcome : Except String ListResult)
    (queryEnabled : Bool) (queryOutcome : Except String PlayerInfo)
    (hss : serverSuccess = true) (hst : state = some ServState.running) :
    PollCall.consoleList ∈
      (computePlayerInfo serverSuccess state consoleOutcome queryEnabled
        queryOutcome).2 ∧
    (∀ d, consoleOutcome = Except.ok d →
       computePlayerInfo serverSuccess state consoleOutcome queryEnabled
           queryOutcome =
         (some { online := d.count, max := d.max, players := d.players },
          [PollCall.consoleList])) ∧
    (∀ e, consoleOutcome = Except.error e →
       (queryEnabled = true →
          PollCall.queryPlayers ∈
            (computePlayerInfo serverSuccess state consoleOutcome queryEnabled
              queryOutcome).2) ∧
       (queryEnabled = false →
          computePlayerInfo serverSuccess state consoleOutcome queryEnabled
              queryOutcome =
            (none, [PollCall.consoleList]))) := by
  subst hss hst
  cases consoleOutcome with
  | ok d =>
      refine ⟨?_, ?_, ?_⟩
      · simp [computePlayerInfo]
      · intro d' hd'
        cases hd'
        simp [computePlayerInfo]
      · intro e he
        cases he
  | error e =>
      cases queryEnabled with
      | false =>
          refine ⟨?_, ?_, ?_⟩
          · simp [computePlayerInfo]
          · intro d' hd'
            cases hd'
          · intro e' he'
            exact ⟨fun h => Bool.noConfusion h, fun _ => by simp [computePlayerInfo]⟩
      | true =>
          refine ⟨?_, ?_, ?_⟩
          · cases queryOutcome <;> simp [computePlayerInfo]
          · intro d' hd'
            cases hd'
          · intro e' he'
            refine ⟨fun _ => ?_, fun h => Bool.noConfusion h⟩
            cases queryOutcome <;> simp [computePlayerInfo]

/-- Witness for C7 at a concrete tick: resources fetch succeeded, state
running, the console list-players attempt failed and no query protocol is
configured — the list-players accessor was called, the query accessor was
not, and the roster is absent. -/
theorem statusPoll_roster_policy_witness :
    PollCall.consoleList ∈
      (computePlayerInfo true (some ServState.running)
        (Except.error "Timeout waiting for console message") false
        (Except.error "Minecraft server not configured")).2 ∧
    (∀ d, Except.error (α := String) (ε := String)
            "Timeout waiting for console message" = Except.ok d → False) ∧
    computePlayerInfo true (some ServState.running)
        (Except.error "Timeout waiting for console message") false
        (Except.error "Minecraft server not configured") =
      (none, [PollCall.consoleList]) := by
  have h := statusPoll_roster_policy true (some ServState.running)
    (Except.error "Timeout waiting for console message") false
    (Except.error "Minecraft server not configured") rfl rfl
  refine ⟨h.1, ?_, (h.2.2 "Timeout waiting for console message" rfl).2 rfl⟩
  intro d hd
  exact Except.noConfusion hd

/-- Claim C8: sendCommand(text) on an unauthenticated session emits no
frame and logs the failure — sendCommand is a total function, so no
exception is raised — and on an authenticated session with an open socket
it emits exactly the frame with tag 'send command' carrying the command
text. -/
theorem sendCommand_auth_policy (st : CLState) (command : String) :
    (st.authenticated = false →
       sendCommand st command =
         ([], ["Cannot send command: Not authenticated"])) ∧
    (st.authenticated = true → st.ws = some ReadyState.opened →
       sendCommand st command =
         ([{ event := "send command", args := [command] }],
          ["Sent command via WebSocket: " ++ command])) := by
  constructor
  · intro h
    simp [sendCommand, h]
  · intro h1 h2
    simp [sendCommand, send, h1, h2]

/-- Witness for C8: the unauthenticated state yields the logged no-op; the
authenticated open state yields exactly the command frame for "list". -/
theorem sendCommand_auth_policy_witness :
    sendCommand unauthState "list" =
      ([], ["Cannot send command: Not authenticated"]) ∧
    sendCommand liveState "list" =
      ([{ event := "send command", args := ["list"] }],
       ["Sent command via WebSocket: list"]) :=
  ⟨(sendCommand_auth_policy unauthState "list").1 rfl,
   (sendCommand_auth_policy liveState "list").2 rfl rfl⟩

/-- Claim C10: for every snapshot with a nonzero memory limit the rendered
memory percent equals round(100 * memory_bytes / memory_limit_bytes) with
JS Math.round semantics (half toward positive infinity); the division has
no zero guard, and a zero memory limit makes the JS quotient non-finite
(modelled as none), which reaches the rendered message. -/
theorem memoryPercent_formula (memoryBytes memoryLimitBytes : Nat) :
    (memoryLimitBytes ≠ 0 →
       memoryPercent memoryBytes memoryLimitBytes =
         some (jsRound ((100 * (memoryBytes : ℚ)) / (memoryLimitBytes : ℚ)))) ∧
    memoryPercent memoryBytes 0 = none := by
  constructor
  · intro h
    unfold memoryPercent
    rw [if_neg h]
    congr 1
    rw [div_mul_eq_mul_div, mul_comm]
  · rfl

/-- Witness for C10 at a concrete snapshot: 1024 bytes used of a 2048-byte
limit gives the formula value (50), and a zero limit gives the non-finite
percent. -/
theorem memoryPercent_formula_witness :
    memoryPercent 1024 2048 =
      some (jsRound ((100 * (1024 : ℚ)) / (2048 : ℚ))) ∧
    memoryPercent 1024 0 = none :=
  ⟨(memoryPercent_formula 1024 2048).1 (by decide),
   (memoryPercent_formula 1024 0).2⟩

end WhitelistBot
